import Mathlib

/-!
Verification of the Dual-Cadence Sampling & Rollover Engine of the
envoy-logger repository (`envoy_logger/sampling_engine.py` and
`envoy_logger/influxdb_sampling_engine.py`), shallowly embedded in Lean 4.

Timestamps of inverter readings are modelled as integers (epoch seconds);
wall-clock instants used by the cycle aligner and the cadence gate are
modelled as rationals (Python floats compared and subtracted exactly).
Exception classes are modelled as an enumeration together with boolean
predicates reproducing each `except` clause of the source.
-/

namespace EnvoyLogger

/-- Exception classes that can arise in a sampling cycle, as distinguished by
the source's `except` clauses. `requestsSSLError`, `requestsConnectionError`,
`requestsTimeout`, `requestsReadTimeout` and `requestsConnectTimeout` model the
corresponding `requests` exception classes; `influxApiException` models the
InfluxDB client's `ApiException` (a direct subclass of `Exception`);
`genericException` models a bare `Exception`. -/
inductive PyExc where
  | sslError
  | requestsSSLError
  | requestsConnectionError
  | requestsTimeout
  | requestsReadTimeout
  | requestsConnectTimeout
  | osError
  | influxApiException
  | genericException
deriving DecidableEq, Repr

/-- The `except` tuple of `_power_loop` and `_inverter_loop`
(influxdb_sampling_engine.py lines 66-72 and 94-100):
`(ssl.SSLError, requests.exceptions.SSLError, requests.exceptions.ConnectionError,
requests.exceptions.Timeout, OSError)`. `ReadTimeout` and `ConnectTimeout`
are subclasses of `Timeout`, and `requests.exceptions.SSLError` of
`ConnectionError`, so they are caught; `ApiException` and a bare `Exception`
are not instances of any listed class. -/
def caught_by_cycle_handler : PyExc → Bool
  | .sslError => true
  | .requestsSSLError => true
  | .requestsConnectionError => true
  | .requestsTimeout => true
  | .requestsReadTimeout => true
  | .requestsConnectTimeout => true
  | .osError => true
  | .influxApiException => false
  | .genericException => false

/-- The `except (ReadTimeout, ConnectTimeout)` clause of the power retry loop
in `collect_samples_with_retry` (sampling_engine.py line 78): only these two
timeout classes are retried. -/
def is_power_retry_timeout : PyExc → Bool
  | .requestsReadTimeout => true
  | .requestsConnectTimeout => true
  | _ => false

/-- The `except (RequestException, ssl.SSLError, OSError)` clause guarding the
single inverter poll in `collect_samples_with_retry` (sampling_engine.py
line 107). All `requests` exceptions are subclasses of `RequestException`. -/
def caught_by_inverter_poll_handler : PyExc → Bool
  | .influxApiException => false
  | .genericException => false
  | _ => true

/-- An inverter reading: serial number, report timestamp (epoch seconds) and
reported watts, as in `envoy_logger/model.py`'s `InverterSample`. -/
structure InverterSample where
  serial : String
  ts : Int
  watts : Int
deriving DecidableEq, Repr

/-- Modelled from the spec: `filter_new_inverter_data` is defined in
`envoy_logger/model.py`, which is not part of the provided sources; per the
spec's Watermark Filter contract, given a cutoff `C` (possibly absent) and a
batch of readings, a reading `r` is kept iff `C` is absent or
`r.timestamp > C` (strict greater-than). -/
def filter_new_inverter_data (data : List InverterSample) (cutoff : Option Int) :
    List InverterSample :=
  match cutoff with
  | none => data
  | some c => data.filter fun r => decide (c < r.ts)

/-- The result of the Flux query in `_query_last_inverter_timestamp`,
flattened to the sequence of `record.get_time()` values over all tables, or
the exception the query raised. -/
abbrev CutoffQueryResult := Except PyExc (List (Option Int))

/-- `_query_last_inverter_timestamp` (influxdb_sampling_engine.py lines
107-128): on a query exception return `none` (the `except Exception` clause);
otherwise return the first record time that is not `None`, or `none` when
every record time is missing. -/
def query_last_inverter_timestamp (queryResult : CutoffQueryResult) : Option Int :=
  match queryResult with
  | .error _ => none
  | .ok times => times.findSome? id

/-- A high-rate inverter point as built by `_point_from_inverter`
(influxdb_sampling_engine.py lines 263-273): measurement name
`inverter-production-<serial>`, the sample's timestamp, and field `P`. -/
structure InverterPoint where
  name : String
  serial : String
  ts : Int
  P : Int
deriving DecidableEq, Repr

/-- `_point_from_inverter` (influxdb_sampling_engine.py lines 263-273). -/
def point_from_inverter (inv : InverterSample) : InverterPoint :=
  { name := "inverter-production-" ++ inv.serial
    serial := inv.serial
    ts := inv.ts
    P := inv.watts }

/-- `_inverter_high_rate_points` (influxdb_sampling_engine.py lines 149-152):
one point per filtered inverter sample. -/
def inverter_high_rate_points (data : List InverterSample) : List InverterPoint :=
  data.map point_from_inverter

/-- A record of the power daily integral Flux query in
`_compute_power_daily_Wh_points`: columns `measurement-type`, `line-idx` and
the integral `_value` (Wh). -/
structure PowerIntegralRecord where
  measurementType : String
  lineIdx : Int
  value : ℚ
deriving DecidableEq, Repr

/-- A daily power summary point as built by `_compute_power_daily_Wh_points`:
measurement name `<measurement-type>-daily-summary-line<idx>` and field `Wh`. -/
structure PowerDailyPoint where
  name : String
  measurementType : String
  lineIdx : Int
  Wh : ℚ
deriving DecidableEq, Repr

/-- `_compute_power_daily_Wh_points` (influxdb_sampling_engine.py lines
177-203): one daily point per record of the integral query result. -/
def compute_power_daily_Wh_points (records : List PowerIntegralRecord) :
    List PowerDailyPoint :=
  records.map fun r =>
    { name := r.measurementType ++ "-daily-summary-line" ++ toString r.lineIdx
      measurementType := r.measurementType
      lineIdx := r.lineIdx
      Wh := r.value }

/-- A record of the inverter daily integral Flux query in
`_compute_inverter_daily_Wh_points`: columns `serial` and the integral
`_value` (Wh). -/
structure InverterIntegralRecord where
  serial : String
  value : ℚ
deriving DecidableEq, Repr

/-- A daily inverter summary point as built by
`_compute_inverter_daily_Wh_points`: measurement name
`inverter-daily-summary-<serial>` and field `Wh`. -/
structure InverterDailyPoint where
  name : String
  serial : String
  Wh : ℚ
deriving DecidableEq, Repr

/-- Constructor shared by both branches of `_compute_inverter_daily_Wh_points`. -/
def inverter_daily_point (serial : String) (wh : ℚ) : InverterDailyPoint :=
  { name := "inverter-daily-summary-" ++ serial, serial := serial, Wh := wh }

/-- `_compute_inverter_daily_Wh_points` (influxdb_sampling_engine.py lines
205-243): one point per query-result record with the queried Wh value; every
record's serial is discarded from the set of configured inverter serials
(`config.inverters.keys()`), and each remaining unreported serial gets an
explicit `Wh = 0.0` point. -/
def compute_inverter_daily_Wh_points (inverters : List String)
    (records : List InverterIntegralRecord) : List InverterDailyPoint :=
  (records.map fun r => inverter_daily_point r.serial r.value)
  ++ ((inverters.filter fun s => !(records.any fun r => r.serial == s)).map
        fun s => inverter_daily_point s 0)

/-- Outcome of one day-rollover invocation: `skipped` when the stored date
already equals today (no query, no write); `queryFailed` when the integral
query raised; `noPoints` when the query succeeded but produced no points so
the `if points:` guard suppressed the write; `writeFailed` when a write was
issued and raised; `wrote` when a write was issued and succeeded. -/
inductive RolloverOutcome (α : Type) where
  | skipped : RolloverOutcome α
  | queryFailed : PyExc → RolloverOutcome α
  | noPoints : RolloverOutcome α
  | writeFailed : PyExc → List α → RolloverOutcome α
  | wrote : List α → RolloverOutcome α
deriving DecidableEq, Repr

/-- Whether the rollover invocation ran the integral query. The query is the
first statement of the compute helper, so it runs in every non-skipped branch. -/
def RolloverOutcome.performedQuery {α : Type} : RolloverOutcome α → Bool
  | .skipped => false
  | _ => true

/-- Whether the rollover invocation issued a daily write call. -/
def RolloverOutcome.performedWrite {α : Type} : RolloverOutcome α → Bool
  | .writeFailed _ _ => true
  | .wrote _ => true
  | _ => false

/-- The exception escaping the rollover invocation, if any; it propagates to
the owning loop's cycle handler. -/
def RolloverOutcome.escapedExc {α : Type} : RolloverOutcome α → Option PyExc
  | .queryFailed e => some e
  | .writeFailed e _ => some e
  | _ => none

/-- `_power_day_rollover` (influxdb_sampling_engine.py lines 154-163): if the
stored date equals today, return at once; otherwise advance the stored date
first, then run the integral query (any exception propagates after the date
is advanced), and write the computed points only when there are any (any
write exception also propagates). Local dates are modelled as integers. -/
def power_day_rollover (stored_date today : Int)
    (queryResult : Except PyExc (List PowerIntegralRecord))
    (writeResult : Except PyExc Unit) :
    Int × RolloverOutcome PowerDailyPoint :=
  if stored_date = today then (stored_date, .skipped)
  else
    match queryResult with
    | .error e => (today, .queryFailed e)
    | .ok records =>
      let points := compute_power_daily_Wh_points records
      if points.isEmpty then (today, .noPoints)
      else
        match writeResult with
        | .error e => (today, .writeFailed e points)
        | .ok _ => (today, .wrote points)

/-- `_inverter_day_rollover` (influxdb_sampling_engine.py lines 165-175):
same date-guarded shape as the power rollover, computing inverter daily
points (with the configured expected serials) instead. -/
def inverter_day_rollover (stored_date today : Int) (inverters : List String)
    (queryResult : Except PyExc (List InverterIntegralRecord))
    (writeResult : Except PyExc Unit) :
    Int × RolloverOutcome InverterDailyPoint :=
  if stored_date = today then (stored_date, .skipped)
  else
    match queryResult with
    | .error e => (today, .queryFailed e)
    | .ok records =>
      let points := compute_inverter_daily_Wh_points inverters records
      if points.isEmpty then (today, .noPoints)
      else
        match writeResult with
        | .error e => (today, .writeFailed e points)
        | .ok _ => (today, .wrote points)

/-- Sleep duration computed by the body of `wait_for_next_cycle`
(sampling_engine.py lines 36-53): `remainder = now % interval` (Python float
modulo, i.e. `now - interval * floor(now / interval)` for a positive
interval); sleep `0.1` when `remainder < 0.1`, else `interval - remainder`. -/
def wait_sleep_duration (interval_seconds now : ℚ) : ℚ :=
  let remainder := now - interval_seconds * (⌊now / interval_seconds⌋ : ℚ)
  if remainder < 1 / 10 then 1 / 10 else interval_seconds - remainder

/-- Result of a Python call to `wait_for_next_cycle`: either the call binds
its arguments and sleeps, or the argument count does not match the declared
parameters and the call raises `TypeError` before the body runs. -/
inductive WaitCallResult where
  | typeError : WaitCallResult
  | sleeps : ℚ → WaitCallResult
deriving DecidableEq, Repr

/-- Number of interval parameters accepted by `wait_for_next_cycle` as
declared in sampling_engine.py line 36 (`def wait_for_next_cycle(self)`):
the method takes only `self`, no interval parameter. -/
def wait_for_next_cycle_declared_interval_params : Nat := 0

/-- A Python call `self.wait_for_next_cycle(*args)`: when the number of
positional arguments matches the declared interval parameters the body runs
on `self.interval_seconds`; otherwise the call raises `TypeError`. -/
def call_wait_for_next_cycle (args : List ℚ) (self_interval_seconds now : ℚ) :
    WaitCallResult :=
  if args.length = wait_for_next_cycle_declared_interval_params then
    .sleeps (wait_sleep_duration self_interval_seconds now)
  else .typeError

/-- The call site of `_power_loop` (influxdb_sampling_engine.py line 56):
`self.wait_for_next_cycle(self.interval_seconds)`. -/
def power_loop_wait_call (interval_seconds now : ℚ) : WaitCallResult :=
  call_wait_for_next_cycle [interval_seconds] interval_seconds now

/-- The call site of `_inverter_loop` (influxdb_sampling_engine.py line 81):
`self.wait_for_next_cycle(self.inverter_interval_seconds)`. -/
def inverter_loop_wait_call (self_interval inverter_interval now : ℚ) :
    WaitCallResult :=
  call_wait_for_next_cycle [inverter_interval] self_interval now

/-- Result of the power retry loop of `collect_samples_with_retry`
(sampling_engine.py lines 66-94): either the poll succeeded on some attempt,
or every attempt timed out and the loop exhausted (the function then raises
`TimeoutError` and returns no data), or a non-timeout exception escaped the
loop on some attempt. `attemptsUsed` counts polls performed and
`sleepsTaken` counts backoff sleeps of `wait_seconds` performed. -/
inductive PowerRetryResult where
  | gotData : Nat → Nat → Nat → PowerRetryResult
  | timedOut : Nat → Nat → PowerRetryResult
  | propagated : PyExc → Nat → Nat → PowerRetryResult
deriving DecidableEq, Repr

/-- One power poll attempt: the sample payload (opaque, numbered) or the
exception raised. -/
abbrev PollAttempt := Except PyExc Nat

/-- The `for attempt in range(retries)` loop of `collect_samples_with_retry`:
success breaks out with the data; a `ReadTimeout`/`ConnectTimeout` is caught
and, when `attempt < retries - 1`, followed by a `time.sleep(wait_seconds)`
before the next attempt; any other exception escapes at once. -/
def collect_power_with_retry_aux (outcomes : Nat → PollAttempt)
    (retries attempt sleeps : Nat) : PowerRetryResult :=
  if _hlt : attempt < retries then
    match outcomes attempt with
    | .ok d => .gotData d (attempt + 1) sleeps
    | .error e =>
      if is_power_retry_timeout e then
        if attempt < retries - 1 then
          collect_power_with_retry_aux outcomes retries (attempt + 1) (sleeps + 1)
        else
          collect_power_with_retry_aux outcomes retries (attempt + 1) sleeps
      else .propagated e (attempt + 1) sleeps
  else .timedOut attempt sleeps
termination_by retries - attempt

/-- The power-poll section of `collect_samples_with_retry` (sampling_engine.py
lines 63-94), starting at attempt 0 with no sleeps taken. -/
def collect_power_with_retry (outcomes : Nat → PollAttempt) (retries : Nat) :
    PowerRetryResult :=
  collect_power_with_retry_aux outcomes retries 0 0

/-- Default `retries` argument of `collect_samples_with_retry`. -/
def collect_samples_default_retries : Nat := 10

/-- Default `wait_seconds` argument of `collect_samples_with_retry`. -/
def collect_samples_default_wait_seconds : ℚ := 5

/-- `_should_poll_inverters` (sampling_engine.py lines 55-61): poll when no
prior poll timestamp exists or the elapsed seconds since it reach the
inverter interval. Instants are rationals (epoch seconds). -/
def should_poll_inverters (last_inverter_poll : Option ℚ)
    (now inverter_interval_seconds : ℚ) : Bool :=
  match last_inverter_poll with
  | none => true
  | some t => decide (inverter_interval_seconds ≤ now - t)

/-- Result of the inverter section of `collect_samples_with_retry`:
`notDue` when the cadence gate skipped the poll, `polled` on a successful
poll (possibly with zero readings), `pollFailed` when the single attempt
raised one of the caught classes (degraded to no data), `propagated` when it
raised an uncaught class. -/
inductive InverterPollOutcome where
  | notDue : InverterPollOutcome
  | polled : List InverterSample → InverterPollOutcome
  | pollFailed : PyExc → InverterPollOutcome
  | propagated : PyExc → InverterPollOutcome
deriving DecidableEq, Repr

/-- The inverter section of `collect_samples_with_retry` (sampling_engine.py
lines 98-116): gate check, then a single poll attempt; on success set
`last_inverter_poll = now`; on a caught failure return no data without
touching the gate timestamp; an uncaught exception also leaves it unchanged. -/
def inverter_poll_step (last_inverter_poll : Option ℚ)
    (now inverter_interval_seconds : ℚ)
    (pollResult : Except PyExc (List InverterSample)) :
    Option ℚ × InverterPollOutcome :=
  if should_poll_inverters last_inverter_poll now inverter_interval_seconds then
    match pollResult with
    | .ok d => (some now, .polled d)
    | .error e =>
      if caught_by_inverter_poll_handler e then (last_inverter_poll, .pollFailed e)
      else (last_inverter_poll, .propagated e)
  else (last_inverter_poll, .notDue)

/-- Fate of one loop cycle: `completed` normally, `cycleSkipped` when an
exception was caught by the loop's `except` tuple (the loop continues), or
`threadTerminated` when an exception escaped the tuple and killed the loop
thread. -/
inductive CycleResult where
  | completed : CycleResult
  | cycleSkipped : PyExc → CycleResult
  | threadTerminated : PyExc → CycleResult
deriving DecidableEq, Repr

/-- The `except` handler wrapping each loop cycle: an exception in the caught
tuple is logged and the cycle skipped; any other exception escapes the
`while True` loop and terminates the thread. -/
def handle_cycle_exc (e : PyExc) : CycleResult :=
  if caught_by_cycle_handler e then .cycleSkipped e else .threadTerminated e

/-- One cycle of `_power_loop` (influxdb_sampling_engine.py lines 54-77),
after the wait: poll power data, write the high-rate points, then run the
power day rollover; each step's exception reaches the single `except`
clause. The returned date is the power rollover date after the cycle. -/
def power_loop_cycle (pollResult : Except PyExc Nat)
    (hrWriteResult : Except PyExc Unit)
    (stored_date today : Int)
    (rolloverQuery : Except PyExc (List PowerIntegralRecord))
    (rolloverWrite : Except PyExc Unit) :
    Int × CycleResult :=
  match pollResult with
  | .error e => (stored_date, handle_cycle_exc e)
  | .ok _ =>
    match hrWriteResult with
    | .error e => (stored_date, handle_cycle_exc e)
    | .ok _ =>
      let result := power_day_rollover stored_date today rolloverQuery rolloverWrite
      match result.2.escapedExc with
      | some e => (result.1, handle_cycle_exc e)
      | none => (result.1, .completed)

/-- One cycle of `_inverter_loop` (influxdb_sampling_engine.py lines 79-105),
after the wait: best-effort cutoff query (its exceptions are swallowed inside
`_query_last_inverter_timestamp`), inverter poll, watermark filter, high-rate
write when any points remain, then the inverter day rollover; each raising
step's exception reaches the single `except` clause. -/
def inverter_loop_cycle (cutoffQueryResult : CutoffQueryResult)
    (pollResult : Except PyExc (List InverterSample))
    (hrWriteResult : Except PyExc Unit)
    (stored_date today : Int) (inverters : List String)
    (rolloverQuery : Except PyExc (List InverterIntegralRecord))
    (rolloverWrite : Except PyExc Unit) :
    Int × CycleResult :=
  let cutoff := query_last_inverter_timestamp cutoffQueryResult
  match pollResult with
  | .error e => (stored_date, handle_cycle_exc e)
  | .ok raw =>
    let points := inverter_high_rate_points (filter_new_inverter_data raw cutoff)
    let hw : Except PyExc Unit := if points.isEmpty then .ok () else hrWriteResult
    match hw with
    | .error e => (stored_date, handle_cycle_exc e)
    | .ok _ =>
      let result := inverter_day_rollover stored_date today inverters
        rolloverQuery rolloverWrite
      match result.2.escapedExc with
      | some e => (result.1, handle_cycle_exc e)
      | none => (result.1, .completed)

end EnvoyLogger

namespace EnvoyLogger

/-- C1: for every batch of inverter readings and every cutoff obtained from
the backend query, a reading `r` is kept by the watermark filter iff the
cutoff is absent or `r.ts` strictly exceeds it; in particular a reading with
`r.ts` equal to the cutoff is dropped. -/
theorem c1_watermark_filter_keeps_iff_strictly_newer
    (data : List InverterSample) (cutoff : Option Int) (r : InverterSample) :
    (r ∈ filter_new_inverter_data data cutoff ↔
      r ∈ data ∧ (cutoff = none ∨ ∃ c, cutoff = some c ∧ c < r.ts))
    ∧ r ∉ filter_new_inverter_data data (some r.ts) := by
  constructor
  · cases cutoff with
    | none => simp [filter_new_inverter_data]
    | some c =>
      simp only [filter_new_inverter_data, List.mem_filter, decide_eq_true_eq]
      constructor
      · rintro ⟨hm, hc⟩
        exact ⟨hm, Or.inr ⟨c, rfl, hc⟩⟩
      · rintro ⟨hm, hc | ⟨c2, hc2, hlt⟩⟩
        · exact absurd hc (by simp)
        · cases hc2
          exact ⟨hm, hlt⟩
  · simp [filter_new_inverter_data, List.mem_filter]

/-- Witness for C1: with cutoff 5, a reading stamped 7 is kept and a reading
stamped exactly 5 is dropped. -/
theorem c1_witness :
    ({ serial := "inv1", ts := 7, watts := 1 } : InverterSample) ∈
      filter_new_inverter_data [{ serial := "inv1", ts := 7, watts := 1 }] (some 5)
    ∧ ({ serial := "inv1", ts := 5, watts := 1 } : InverterSample) ∉
      filter_new_inverter_data [{ serial := "inv1", ts := 5, watts := 1 }] (some 5) := by
  constructor
  · exact ((c1_watermark_filter_keeps_iff_strictly_newer
      [{ serial := "inv1", ts := 7, watts := 1 }] (some 5)
      { serial := "inv1", ts := 7, watts := 1 }).1).mpr
      ⟨List.mem_singleton.mpr rfl, Or.inr ⟨5, rfl, by decide⟩⟩
  · exact (c1_watermark_filter_keeps_iff_strictly_newer
      [{ serial := "inv1", ts := 5, watts := 1 }] (some 5)
      { serial := "inv1", ts := 5, watts := 1 }).2

/-- C5: if the backend query for the last previously-written inverter
timestamp raises, the cutoff is `none`, so the watermark filter retains every
reading returned that cycle (zero dropped). -/
theorem c5_query_failure_retains_all
    (e : PyExc) (raw : List InverterSample) :
    query_last_inverter_timestamp (Except.error e) = none
    ∧ filter_new_inverter_data raw (query_last_inverter_timestamp (Except.error e)) = raw := by
  exact ⟨rfl, rfl⟩

/-- The serial tag of a constructed inverter daily point. -/
theorem inverter_daily_point_serial (s : String) (w : ℚ) :
    (inverter_daily_point s w).serial = s := rfl

/-- Filtering the reported daily points by a serial that no record carries
yields nothing. -/
theorem filter_reported_points_nil (records : List InverterIntegralRecord)
    (s : String) (hs : s ∉ records.map InverterIntegralRecord.serial) :
    ((records.map fun x => inverter_daily_point x.serial x.value).filter
      fun p => p.serial == s) = [] := by
  induction records with
  | nil => rfl
  | cons a l ih =>
    simp only [List.map_cons, List.mem_cons, not_or] at hs
    have hne : ¬ ((inverter_daily_point a.serial a.value).serial == s) = true := by
      simp only [inverter_daily_point_serial, beq_iff_eq]
      exact fun hcontra => hs.1 hcontra.symm
    rw [List.map_cons, List.filter_cons, if_neg hne]
    exact ih hs.2

/-- Filtering the reported daily points by the serial of a record yields
exactly that record's point, provided record serials are distinct. -/
theorem filter_reported_points_singleton (records : List InverterIntegralRecord)
    (r : InverterIntegralRecord)
    (hnd : (records.map InverterIntegralRecord.serial).Nodup) (hr : r ∈ records) :
    ((records.map fun x => inverter_daily_point x.serial x.value).filter
      fun p => p.serial == r.serial) = [inverter_daily_point r.serial r.value] := by
  induction records with
  | nil => cases hr
  | cons a l ih =>
    simp only [List.map_cons, List.nodup_cons] at hnd
    rcases List.mem_cons.mp hr with heq | hmem
    · subst heq
      have hpe : ((inverter_daily_point r.serial r.value).serial == r.serial) = true := by
        simp only [inverter_daily_point_serial, beq_iff_eq]
      rw [List.map_cons, List.filter_cons, if_pos hpe,
        filter_reported_points_nil l r.serial hnd.1]
    · have hneq : a.serial ≠ r.serial := by
        intro hcontra
        exact hnd.1 (hcontra ▸ List.mem_map.mpr ⟨r, hmem, rfl⟩)
      have hpe : ¬ ((inverter_daily_point a.serial a.value).serial == r.serial) = true := by
        simp only [inverter_daily_point_serial, beq_iff_eq]
        exact hneq
      rw [List.map_cons, List.filter_cons, if_neg hpe]
      exact ih hnd.2 hmem

/-- Filtering fixed-Wh points built from a string list by a serial absent
from that list yields nothing. -/
theorem filter_string_points_nil (ts : List String) (s : String) (w : ℚ)
    (hs : s ∉ ts) :
    ((ts.map fun t => inverter_daily_point t w).filter fun p => p.serial == s) = [] := by
  induction ts with
  | nil => rfl
  | cons a l ih =>
    simp only [List.mem_cons, not_or] at hs
    have hne : ¬ ((inverter_daily_point a w).serial == s) = true := by
      simp only [inverter_daily_point_serial, beq_iff_eq]
      exact fun hcontra => hs.1 hcontra.symm
    rw [List.map_cons, List.filter_cons, if_neg hne]
    exact ih hs.2

/-- Filtering fixed-Wh points built from a duplicate-free string list by a
member serial yields exactly that serial's point. -/
theorem filter_string_points_singleton (ts : List String) (s : String) (w : ℚ)
    (hnd : ts.Nodup) (hs : s ∈ ts) :
    ((ts.map fun t => inverter_daily_point t w).filter fun p => p.serial == s)
      = [inverter_daily_point s w] := by
  induction ts with
  | nil => cases hs
  | cons a l ih =>
    simp only [List.nodup_cons] at hnd
    rcases List.mem_cons.mp hs with heq | hmem
    · subst heq
      have hpe : ((inverter_daily_point s w).serial == s) = true := by
        simp only [inverter_daily_point_serial, beq_iff_eq]
      rw [List.map_cons, List.filter_cons, if_pos hpe,
        filter_string_points_nil l s w hnd.1]
    · have hneq : a ≠ s := fun hcontra => hnd.1 (hcontra ▸ hmem)
      have hpe : ¬ ((inverter_daily_point a w).serial == s) = true := by
        simp only [inverter_daily_point_serial, beq_iff_eq]
        exact hneq
      rw [List.map_cons, List.filter_cons, if_neg hpe]
      exact ih hnd.2 hmem

/-- C2: on an inverter day rollover, each serial present in the integral
query result gets exactly one daily point carrying the queried Wh value, and
each configured expected serial absent from the result gets exactly one
explicit `Wh = 0` point; with an empty result and an empty expected set no
points are produced and the rollover issues no write call. -/
theorem c2_inverter_daily_rollover_completeness
    (inverters : List String) (records : List InverterIntegralRecord)
    (hrec : (records.map InverterIntegralRecord.serial).Nodup)
    (hinv : inverters.Nodup) :
    (∀ r ∈ records,
      ((compute_inverter_daily_Wh_points inverters records).filter
        fun p => p.serial == r.serial) = [inverter_daily_point r.serial r.value])
    ∧ (∀ s ∈ inverters, s ∉ records.map InverterIntegralRecord.serial →
      ((compute_inverter_daily_Wh_points inverters records).filter
        fun p => p.serial == s) = [inverter_daily_point s 0])
    ∧ compute_inverter_daily_Wh_points [] [] = []
    ∧ (∀ stored today w,
        ((inverter_day_rollover stored today [] (Except.ok []) w).2).performedWrite
          = false) := by
  refine ⟨?_, ?_, rfl, ?_⟩
  · intro r hr
    unfold compute_inverter_daily_Wh_points
    rw [List.filter_append]
    rw [filter_reported_points_singleton records r hrec hr]
    have hmemser : r.serial ∈ records.map InverterIntegralRecord.serial :=
      List.mem_map.mpr ⟨r, hr, rfl⟩
    have hnotin : r.serial ∉ inverters.filter
        fun s => !(records.any fun x => x.serial == s) := by
      intro hcontra
      have hprop := (List.mem_filter.mp hcontra).2
      have hany : (records.any fun x => x.serial == r.serial) = true :=
        List.any_eq_true.mpr ⟨r, hr, by simp⟩
      rw [hany] at hprop
      simp at hprop
    rw [filter_string_points_nil _ r.serial 0 hnotin]
    rfl
  · intro s hs hnot
    unfold compute_inverter_daily_Wh_points
    rw [List.filter_append]
    rw [filter_reported_points_nil records s hnot]
    have hany : (records.any fun x => x.serial == s) = false := by
      rw [List.any_eq_false]
      intro x hx
      simp only [beq_iff_eq]
      intro hcontra
      exact hnot (hcontra ▸ List.mem_map.mpr ⟨x, hx, rfl⟩)
    have hmem : s ∈ inverters.filter
        fun t => !(records.any fun x => x.serial == t) := by
      rw [List.mem_filter]
      exact ⟨hs, by rw [hany]; rfl⟩
    rw [filter_string_points_singleton _ s 0 (hinv.filter _) hmem]
    rfl
  · intro stored today w
    unfold inverter_day_rollover
    split
    · rfl
    · rfl

/-- Witness for C2 at the spec's example: expected devices A and B, query
result holding only A with 12.5 Wh; the output has exactly A with 12.5 and B
with 0. -/
theorem c2_witness :
    ((compute_inverter_daily_Wh_points ["A", "B"]
        [{ serial := "A", value := 25 / 2 }]).filter
      fun p => p.serial == "A") = [inverter_daily_point "A" (25 / 2)]
    ∧ ((compute_inverter_daily_Wh_points ["A", "B"]
        [{ serial := "A", value := 25 / 2 }]).filter
      fun p => p.serial == "B") = [inverter_daily_point "B" 0] := by
  have h := c2_inverter_daily_rollover_completeness ["A", "B"]
    [{ serial := "A", value := 25 / 2 }] (by decide) (by decide)
  refine ⟨h.1 { serial := "A", value := 25 / 2 } ?_, h.2.1 "B" ?_ ?_⟩
  · exact List.mem_singleton.mpr rfl
  · simp
  · simp

/-- After any power rollover invocation the stored date equals today: either
it already did (skip branch) or it is advanced first thing in the rollover
branch, before the query and the write. -/
theorem power_day_rollover_fst (stored today : Int)
    (q : Except PyExc (List PowerIntegralRecord)) (w : Except PyExc Unit) :
    (power_day_rollover stored today q w).1 = today := by
  by_cases hd : stored = today
  · simp [power_day_rollover, hd]
  · cases q with
    | error e => simp [power_day_rollover, hd]
    | ok records =>
      simp only [power_day_rollover, if_neg hd]
      split
      · rfl
      · cases w <;> rfl

/-- After any inverter rollover invocation the stored date equals today. -/
theorem inverter_day_rollover_fst (stored today : Int) (inverters : List String)
    (q : Except PyExc (List InverterIntegralRecord)) (w : Except PyExc Unit) :
    (inverter_day_rollover stored today inverters q w).1 = today := by
  by_cases hd : stored = today
  · simp [inverter_day_rollover, hd]
  · cases q with
    | error e => simp [inverter_day_rollover, hd]
    | ok records =>
      simp only [inverter_day_rollover, if_neg hd]
      split
      · rfl
      · cases w <;> rfl

/-- A rollover invoked when the stored date already equals today is skipped. -/
theorem power_day_rollover_same_date (today : Int)
    (q : Except PyExc (List PowerIntegralRecord)) (w : Except PyExc Unit) :
    power_day_rollover today today q w = (today, RolloverOutcome.skipped) := by
  simp [power_day_rollover]

/-- A rollover invoked when the stored date already equals today is skipped. -/
theorem inverter_day_rollover_same_date (today : Int) (inverters : List String)
    (q : Except PyExc (List InverterIntegralRecord)) (w : Except PyExc Unit) :
    inverter_day_rollover today today inverters q w
      = (today, RolloverOutcome.skipped) := by
  simp [inverter_day_rollover]

/-- C7: the rollover day-state check is idempotent within a day, for both
cadences: after one invocation, a second invocation with the local date
unchanged is skipped, performing neither the integral query nor the daily
write. -/
theorem c7_rollover_idempotent_within_day (storedP storedI today : Int)
    (inverters : List String)
    (q1 q2 : Except PyExc (List PowerIntegralRecord)) (w1 w2 : Except PyExc Unit)
    (iq1 iq2 : Except PyExc (List InverterIntegralRecord))
    (iw1 iw2 : Except PyExc Unit) :
    ((power_day_rollover (power_day_rollover storedP today q1 w1).1 today q2 w2).2
        = RolloverOutcome.skipped)
    ∧ ((power_day_rollover (power_day_rollover storedP today q1 w1).1
        today q2 w2).2).performedQuery = false
    ∧ ((power_day_rollover (power_day_rollover storedP today q1 w1).1
        today q2 w2).2).performedWrite = false
    ∧ ((inverter_day_rollover (inverter_day_rollover storedI today inverters iq1 iw1).1
        today inverters iq2 iw2).2 = RolloverOutcome.skipped)
    ∧ ((inverter_day_rollover (inverter_day_rollover storedI today inverters iq1 iw1).1
        today inverters iq2 iw2).2).performedQuery = false
    ∧ ((inverter_day_rollover (inverter_day_rollover storedI today inverters iq1 iw1).1
        today inverters iq2 iw2).2).performedWrite = false := by
  rw [power_day_rollover_fst storedP today q1 w1]
  rw [inverter_day_rollover_fst storedI today inverters iq1 iw1]
  rw [power_day_rollover_same_date today q2 w2]
  rw [inverter_day_rollover_same_date today inverters iq2 iw2]
  exact ⟨rfl, rfl, rfl, rfl, rfl, rfl⟩

/-- C8: a power day rollover whose integral query returns zero groups
computes zero daily points and issues no write call. -/
theorem c8_power_rollover_empty_query_no_write (stored today : Int)
    (hne : stored ≠ today) (w : Except PyExc Unit) :
    compute_power_daily_Wh_points [] = []
    ∧ (power_day_rollover stored today (Except.ok []) w).2 = RolloverOutcome.noPoints
    ∧ ((power_day_rollover stored today (Except.ok []) w).2).performedWrite = false := by
  refine ⟨rfl, ?_, ?_⟩ <;> simp [power_day_rollover, hne, compute_power_daily_Wh_points,
    RolloverOutcome.performedWrite]

/-- Witness for C8 at a concrete day change. -/
theorem c8_witness :
    (power_day_rollover 0 1 (Except.ok []) (Except.ok ())).2 = RolloverOutcome.noPoints
    ∧ ((power_day_rollover 0 1 (Except.ok []) (Except.ok ())).2).performedWrite
        = false := by
  have h := c8_power_rollover_empty_query_no_write 0 1 (by decide) (Except.ok ())
  exact ⟨h.2.1, h.2.2⟩

/-- C10: when the local date has changed, both rollovers advance the stored
date before attempting the integral query and the write, so a query failure
(or any later failure) leaves the date advanced and the rollover is not
re-attempted for that date. -/
theorem c10_rollover_date_advances_before_query_and_write (stored today : Int)
    (hne : stored ≠ today) (inverters : List String) (e : PyExc)
    (q : Except PyExc (List PowerIntegralRecord)) (w : Except PyExc Unit)
    (iq : Except PyExc (List InverterIntegralRecord)) (iw : Except PyExc Unit) :
    (power_day_rollover stored today q w).1 = today
    ∧ (power_day_rollover stored today (Except.error e) w).2
        = RolloverOutcome.queryFailed e
    ∧ (∀ q2 w2, power_day_rollover today today q2 w2
        = (today, RolloverOutcome.skipped))
    ∧ (inverter_day_rollover stored today inverters iq iw).1 = today
    ∧ (inverter_day_rollover stored today inverters (Except.error e) iw).2
        = RolloverOutcome.queryFailed e
    ∧ (∀ iq2 iw2, inverter_day_rollover today today inverters iq2 iw2
        = (today, RolloverOutcome.skipped)) := by
  refine ⟨power_day_rollover_fst stored today q w, ?_,
    fun q2 w2 => power_day_rollover_same_date today q2 w2,
    inverter_day_rollover_fst stored today inverters iq iw, ?_,
    fun iq2 iw2 => inverter_day_rollover_same_date today inverters iq2 iw2⟩
  · simp [power_day_rollover, hne]
  · simp [inverter_day_rollover, hne]

/-- Witness for C10 at a concrete day change with a failing integral query. -/
theorem c10_witness :
    (power_day_rollover 0 1 (Except.error PyExc.influxApiException) (Except.ok ())).1 = 1
    ∧ (power_day_rollover 0 1 (Except.error PyExc.influxApiException)
        (Except.ok ())).2 = RolloverOutcome.queryFailed PyExc.influxApiException
    ∧ power_day_rollover 1 1 (Except.ok []) (Except.ok ())
        = (1, RolloverOutcome.skipped) := by
  have h := c10_rollover_date_advances_before_query_and_write 0 1 (by decide) []
    PyExc.influxApiException (Except.error PyExc.influxApiException) (Except.ok ())
    (Except.ok []) (Except.ok ())
  exact ⟨h.1, h.2.1, h.2.2.1 (Except.ok []) (Except.ok ())⟩

/-- C6: the source's `wait_for_next_cycle` does not take the polling interval
as a parameter, yet both loop call sites pass one, so each call raises
`TypeError` instead of sleeping; the body's arithmetic itself matches the
claimed examples (at epoch second 1704067200 with interval 60 it would sleep
0.1s, and at 1704067230 it would sleep 30s). -/
theorem c6_wait_call_sites_raise_type_error :
    inverter_loop_wait_call 60 300 1704067230 = WaitCallResult.typeError
    ∧ power_loop_wait_call 60 1704067200 = WaitCallResult.typeError
    ∧ wait_sleep_duration 60 1704067200 = 1 / 10
    ∧ wait_sleep_duration 60 1704067230 = 30 := by
  refine ⟨rfl, rfl, ?_, ?_⟩
  · have h : ((1704067200 : ℚ) / 60) = ((28401120 : ℤ) : ℚ) := by norm_num
    simp only [wait_sleep_duration, h, Int.floor_intCast]
    norm_num
  · have h : ⌊(1704067230 : ℚ) / 60⌋ = 28401120 := by
      rw [Int.floor_eq_iff]
      constructor <;> norm_num
    simp only [wait_sleep_duration, h]
    norm_num

/-- C3: an exception that is not in the loops' caught tuple terminates the
loop thread instead of being caught: a plain `Exception` raised by the
high-rate write, an `ApiException` raised by the rollover integral query, and
a plain `Exception` raised by the inverter high-rate write all escape the
cycle handler; a `requests` connection error, in contrast, is caught and the
cycle skipped. -/
theorem c3_uncaught_cycle_error_terminates_loop :
    power_loop_cycle (Except.ok 0) (Except.error PyExc.genericException) 0 0
        (Except.ok []) (Except.ok ())
      = (0, CycleResult.threadTerminated PyExc.genericException)
    ∧ power_loop_cycle (Except.ok 0) (Except.ok ()) 0 1
        (Except.error PyExc.influxApiException) (Except.ok ())
      = (1, CycleResult.threadTerminated PyExc.influxApiException)
    ∧ inverter_loop_cycle (Except.ok [])
        (Except.ok [{ serial := "inv1", ts := 5, watts := 100 }])
        (Except.error PyExc.genericException) 0 0 [] (Except.ok []) (Except.ok ())
      = (0, CycleResult.threadTerminated PyExc.genericException)
    ∧ power_loop_cycle (Except.error PyExc.requestsConnectionError) (Except.ok ()) 0 0
        (Except.ok []) (Except.ok ())
      = (0, CycleResult.cycleSkipped PyExc.requestsConnectionError)
    ∧ caught_by_cycle_handler PyExc.genericException = false
    ∧ caught_by_cycle_handler PyExc.influxApiException = false := by
  exact ⟨rfl, rfl, rfl, rfl, rfl, rfl⟩

/-- When every remaining attempt raises a retryable timeout, the retry loop
exhausts its budget: it performs all remaining attempts, sleeps between
consecutive attempts only, and ends in the timed-out state (the function then
raises `TimeoutError` and produces no data). -/
theorem collect_power_with_retry_aux_all_timeouts (outcomes : Nat → PollAttempt)
    (retries : Nat)
    (hall : ∀ i, i < retries →
      ∃ t, outcomes i = Except.error t ∧ is_power_retry_timeout t = true) :
    ∀ n attempt sleeps, retries - attempt = n → attempt ≤ retries →
      collect_power_with_retry_aux outcomes retries attempt sleeps
        = PowerRetryResult.timedOut retries (sleeps + (retries - 1 - attempt)) := by
  intro n
  induction n with
  | zero =>
    intro attempt sleeps hfuel hle
    have heq : attempt = retries := by omega
    subst heq
    rw [collect_power_with_retry_aux]
    rw [dif_neg (by omega)]
    congr 1
    omega
  | succ n ih =>
    intro attempt sleeps hfuel hle
    have hlt : attempt < retries := by omega
    obtain ⟨t, hout, hto⟩ := hall attempt hlt
    rw [collect_power_with_retry_aux, dif_pos hlt, hout]
    simp only [hto, if_true]
    by_cases hlast : attempt < retries - 1
    · rw [if_pos hlast]
      rw [ih (attempt + 1) (sleeps + 1) (by omega) (by omega)]
      congr 1
      omega
    · rw [if_neg hlast]
      rw [ih (attempt + 1) sleeps (by omega) (by omega)]
      congr 1
      omega

/-- C4: the power poll retry wrapper performs up to `retries` attempts
(default 10) separated by a fixed `wait_seconds` backoff (default 5s),
retrying only on `ReadTimeout`/`ConnectTimeout`; when every attempt times out
it ends timed out after exactly `retries` attempts and `retries - 1` backoff
sleeps, raising a timeout and yielding no data; a non-timeout failure on the
first attempt escapes at once after one attempt and zero sleeps (zero
retries). -/
theorem c4_power_retry_policy (retries : Nat)
    (outcomes outcomes2 : Nat → PollAttempt) (e : PyExc)
    (hall : ∀ i, i < retries →
      ∃ t, outcomes i = Except.error t ∧ is_power_retry_timeout t = true)
    (hfirst : outcomes2 0 = Except.error e)
    (hnt : is_power_retry_timeout e = false)
    (hpos : 0 < retries) :
    collect_power_with_retry outcomes retries
      = PowerRetryResult.timedOut retries (retries - 1)
    ∧ collect_power_with_retry outcomes2 retries = PowerRetryResult.propagated e 1 0
    ∧ collect_samples_default_retries = 10
    ∧ collect_samples_default_wait_seconds = 5 := by
  refine ⟨?_, ?_, rfl, rfl⟩
  · rw [collect_power_with_retry,
      collect_power_with_retry_aux_all_timeouts outcomes retries hall
        retries 0 0 (by omega) (by omega)]
    congr 1
    omega
  · rw [collect_power_with_retry, collect_power_with_retry_aux, dif_pos hpos, hfirst]
    simp only [hnt, Bool.false_eq_true, if_false]

/-- Witness for C4 with a budget of 3 attempts: all-timeouts ends timed out
after 3 attempts and 2 sleeps; a generic first-attempt failure propagates
after 1 attempt and 0 sleeps; the defaults are 10 attempts and a 5-second
backoff. -/
theorem c4_witness :
    collect_power_with_retry (fun _ => Except.error PyExc.requestsReadTimeout) 3
      = PowerRetryResult.timedOut 3 2
    ∧ collect_power_with_retry (fun _ => Except.error PyExc.genericException) 3
      = PowerRetryResult.propagated PyExc.genericException 1 0
    ∧ collect_samples_default_retries = 10
    ∧ collect_samples_default_wait_seconds = 5 := by
  have h := c4_power_retry_policy 3
    (fun _ => Except.error PyExc.requestsReadTimeout)
    (fun _ => Except.error PyExc.genericException) PyExc.genericException
    (fun i hi => ⟨PyExc.requestsReadTimeout, rfl, rfl⟩) rfl rfl (by decide)
  exact ⟨h.1, h.2.1, h.2.2.1, h.2.2.2⟩

/-- C9: the inverter cadence gate polls iff no prior poll timestamp exists or
at least the inverter interval has elapsed since it; a successful poll (even
with zero readings) updates the gate timestamp to now, a failed poll leaves
it unchanged, and a skipped (not due) cycle also leaves it unchanged. -/
theorem c9_inverter_cadence_gate (last : Option ℚ) (now itv : ℚ)
    (d : List InverterSample) (e : PyExc) :
    should_poll_inverters none now itv = true
    ∧ (∀ t, should_poll_inverters (some t) now itv = decide (itv ≤ now - t))
    ∧ (should_poll_inverters last now itv = true →
        (inverter_poll_step last now itv (Except.ok d)).1 = some now
        ∧ (inverter_poll_step last now itv (Except.ok d)).2 = InverterPollOutcome.polled d
        ∧ (inverter_poll_step last now itv (Except.error e)).1 = last)
    ∧ (should_poll_inverters last now itv = false →
        inverter_poll_step last now itv (Except.ok d) = (last, InverterPollOutcome.notDue)
        ∧ inverter_poll_step last now itv (Except.error e)
            = (last, InverterPollOutcome.notDue)) := by
  refine ⟨rfl, fun t => rfl, ?_, ?_⟩
  · intro hdue
    refine ⟨?_, ?_, ?_⟩
    · simp [inverter_poll_step, hdue]
    · simp [inverter_poll_step, hdue]
    · simp only [inverter_poll_step, hdue, if_true]
      by_cases hc : caught_by_inverter_poll_handler e = true
      · simp [hc]
      · simp [hc]
  · intro hnot
    constructor <;> simp [inverter_poll_step, hnot]

/-- Witness for C9 at the spec scenario (interval 300s): no prior timestamp
at t=1000 polls and sets the gate to 1000; 10s later the gate is not due; at
301s elapsed it polls again; and a failed poll leaves the gate unchanged. -/
theorem c9_witness :
    (inverter_poll_step none 1000 300 (Except.ok [])).1 = some 1000
    ∧ inverter_poll_step (some 1000) 1010 300 (Except.ok [])
        = (some 1000, InverterPollOutcome.notDue)
    ∧ (inverter_poll_step (some 1000) 1301 300 (Except.ok [])).2
        = InverterPollOutcome.polled []
    ∧ (inverter_poll_step (some 1000) 1301 300
        (Except.error PyExc.requestsTimeout)).1 = some 1000 := by
  refine ⟨((c9_inverter_cadence_gate none 1000 300 [] PyExc.requestsTimeout).2.2.1
    (by norm_num [should_poll_inverters])).1, ?_, ?_, ?_⟩
  · exact ((c9_inverter_cadence_gate (some 1000) 1010 300 []
      PyExc.requestsTimeout).2.2.2 (by norm_num [should_poll_inverters])).1
  · exact ((c9_inverter_cadence_gate (some 1000) 1301 300 []
      PyExc.requestsTimeout).2.2.1 (by norm_num [should_poll_inverters])).2.1
  · exact ((c9_inverter_cadence_gate (some 1000) 1301 300 []
      PyExc.requestsTimeout).2.2.1 (by norm_num [should_poll_inverters])).2.2

end EnvoyLogger
